import Mathlib

/-!
# Verification of the rate-calculator core (`src/_03_rate_calculator.py`)

This file is a shallow embedding, in Lean 4, of the fee / exchange-cost /
channel-comparison core of the repository.  Python floats are modelled by
exact rationals (`ℚ`); Python's built-in `round` (round-half-to-even,
a.k.a. banker's rounding) is modelled by `pyRound` / `round_to`; the
module-level configuration dictionaries `PAYMENT_CHANNELS`, `TIERED_RATES`
and `EXCHANGE_RATES` (defined in `_01_config.py`) are passed explicitly as
a `Config` value, with Python dictionaries represented as association
lists that preserve iteration order; Python dicts returned by the
functions become inductive result types (`success = False` dictionaries
become the `failure` constructor carrying the error message); a Python
code path that would raise an uncaught exception (e.g. indexing an empty
tier list) is modelled by `Option.none`.
-/

namespace RateCalc

/-- Python's built-in `round` to an integer: round half to even. -/
def pyRound (x : ℚ) : ℤ :=
  if x - (⌊x⌋ : ℚ) < 1/2 then ⌊x⌋
  else if x - (⌊x⌋ : ℚ) > 1/2 then ⌊x⌋ + 1
  else if ⌊x⌋ % 2 = 0 then ⌊x⌋ else ⌊x⌋ + 1

/-- Python's `round(x, n)` for `n ≥ 0` digits, on exact rationals. -/
def round_to (n : ℕ) (x : ℚ) : ℚ := (pyRound (x * 10 ^ n) : ℚ) / 10 ^ n

/-- One entry of `PAYMENT_CHANNELS` (`_01_config.py`): the fields
`_03_rate_calculator.py` reads.  `fixed_fee`, `min_fee`, `max_fee`,
`is_active` and `supported_currencies` are read with `.get` defaults
`0` / `True` / `[]`; `name` and `base_rate` are accessed directly. -/
structure ChannelConfig where
  name : String
  base_rate : ℚ
  fixed_fee : ℚ
  min_fee : ℚ
  max_fee : ℚ
  is_active : Bool
  supported_currencies : List String
deriving DecidableEq

/-- One tier of a `TIERED_RATES` entry: `{"max_amount": ..., "rate": ...}`. -/
structure RateTier where
  max_amount : ℚ
  rate : ℚ
deriving DecidableEq

/-- The three module-level configuration tables imported from `_01_config.py`.
Python dicts (unique keys, insertion-ordered) become association lists. -/
structure Config where
  payment_channels : List (String × ChannelConfig)
  tiered_rates : List (String × List RateTier)
  exchange_rates : List (String × ℚ)

/-- The scan `for tier in tiers: if amount <= tier["max_amount"]: return tier["rate"]`
inside `calculate_tiered_rate`; `none` when the loop falls through. -/
def findTierRate (amount : ℚ) : List RateTier → Option ℚ
  | [] => none
  | t :: ts => if amount ≤ t.max_amount then some t.rate else findTierRate amount ts

/-- `calculate_tiered_rate` (`_03_rate_calculator.py:165`).  Returns `none`
exactly where Python would raise (an `IndexError` from `tiers[-1]` on an
empty tier list). -/
def calculate_tiered_rate (cfg : Config) (amount : ℚ) (channel_id : String) : Option ℚ :=
  match cfg.tiered_rates.lookup channel_id with
  | none =>
      -- channel has no tiered rates: fall back to the channel's base rate
      -- (`PAYMENT_CHANNELS.get(channel_id, {}).get("base_rate", 0.02)`)
      match cfg.payment_channels.lookup channel_id with
      | some c => some c.base_rate
      | none => some 0.02
  | some tiers =>
      match findTierRate amount tiers with
      | some r => some r
      | none => tiers.getLast?.map RateTier.rate

/-- The success payload of the dict returned by `calculate_channel_fee`. -/
structure FeeDetail where
  channel_id : String
  channel_name : String
  amount : ℚ
  rate : ℚ
  fixed_fee : ℚ
  calculated_fee : ℚ
  final_fee : ℚ
  fee_note : String
deriving DecidableEq

/-- The dict returned by `calculate_channel_fee`: either
`{"success": False, "error": msg}` or the full success dict. -/
inductive FeeResult where
  | failure (error : String)
  | ok (d : FeeDetail)
deriving DecidableEq

/-- The `"success"` field of a fee-result dict. -/
def FeeResult.success : FeeResult → Bool
  | .failure _ => false
  | .ok _ => true

/-- The nested clamp conditional of `calculate_channel_fee`
(`_03_rate_calculator.py:248`): yields the final fee and the fee note. -/
def clampFee (min_fee max_fee calculated_fee : ℚ) : ℚ × String :=
  if min_fee > 0 ∧ calculated_fee < min_fee then
    (min_fee, "已应用最低收费")
  else if max_fee > 0 ∧ calculated_fee > max_fee then
    (max_fee, "已应用最高收费")
  else
    (calculated_fee, "")

/-- `calculate_channel_fee` (`_03_rate_calculator.py:201`).  `none` models an
uncaught exception (propagated from `calculate_tiered_rate`). -/
def calculate_channel_fee (cfg : Config) (amount : ℚ) (channel_id : String)
    (use_tiered_rate : Bool) : Option FeeResult :=
  match cfg.payment_channels.lookup channel_id with
  | none => some (.failure ("未知的支付通道: " ++ channel_id))
  | some channel_config =>
    if channel_config.is_active = false then
      some (.failure ("支付通道已停用: " ++ channel_id))
    else
      let rateOpt : Option ℚ :=
        if use_tiered_rate = true ∧ (cfg.tiered_rates.lookup channel_id).isSome then
          calculate_tiered_rate cfg amount channel_id
        else
          some channel_config.base_rate
      match rateOpt with
      | none => none
      | some rate =>
        let fixed_fee := channel_config.fixed_fee
        let calculated_fee := amount * rate + fixed_fee
        let clamped : ℚ × String :=
          clampFee channel_config.min_fee channel_config.max_fee calculated_fee
        some (.ok
          { channel_id := channel_id
            channel_name := channel_config.name
            amount := amount
            rate := rate
            fixed_fee := fixed_fee
            calculated_fee := round_to 2 calculated_fee
            final_fee := round_to 2 clamped.1
            fee_note := clamped.2 })

/-- The success payload of the dict returned by `calculate_exchange_cost`. -/
structure ExchangeDetail where
  from_currency : String
  to_currency : String
  original_amount : ℚ
  market_rate : ℚ
  actual_rate : ℚ
  spread_rate : ℚ
  market_amount : ℚ
  actual_amount : ℚ
  exchange_loss : ℚ
  loss_percentage : ℚ
deriving DecidableEq

/-- The dict returned by `calculate_exchange_cost`. -/
inductive ExchangeResult where
  | failure (error : String)
  | ok (d : ExchangeDetail)
deriving DecidableEq

/-- The `"success"` field of an exchange-result dict. -/
def ExchangeResult.success : ExchangeResult → Bool
  | .failure _ => false
  | .ok _ => true

/-- `calculate_exchange_cost` (`_03_rate_calculator.py:276`). -/
def calculate_exchange_cost (cfg : Config) (amount : ℚ) (from_currency : String)
    (to_currency : String) (spread_rate : ℚ) : ExchangeResult :=
  match cfg.exchange_rates.lookup from_currency with
  | none => .failure ("不支持的货币: " ++ from_currency)
  | some market_rate =>
    let actual_rate := market_rate * (1 - spread_rate)
    let market_amount := amount * market_rate
    let actual_amount := amount * actual_rate
    let exchange_loss := market_amount - actual_amount
    .ok
      { from_currency := from_currency
        to_currency := to_currency
        original_amount := amount
        market_rate := market_rate
        actual_rate := round_to 4 actual_rate
        spread_rate := spread_rate
        market_amount := round_to 2 market_amount
        actual_amount := round_to 2 actual_amount
        exchange_loss := round_to 2 exchange_loss
        loss_percentage := round_to 2 (spread_rate * 100) }

/-- The success payload of the dict returned by `calculate_total_cost`. -/
structure TotalCostDetail where
  amount : ℚ
  currency : String
  channel_id : String
  fee : ℚ
  fee_rate : ℚ
  exchange_loss : ℚ
  amount_cny : ℚ
  total_cost : ℚ
  total_cost_rate : ℚ
deriving DecidableEq

/-- The dict returned by `calculate_total_cost` (error dicts collapse to the
message: only `"success"` and `"error"` are read downstream). -/
inductive TotalCostResult where
  | failure (error : String)
  | ok (d : TotalCostDetail)
deriving DecidableEq

/-- The `"success"` field of a total-cost dict. -/
def TotalCostResult.success : TotalCostResult → Bool
  | .failure _ => false
  | .ok _ => true

/-- `calculate_total_cost` (`_03_rate_calculator.py:338`).  Note that the
stored `total_cost` is rounded to 2 digits, while `total_cost_rate` is
computed from the *unrounded* total cost (as in the source). -/
def calculate_total_cost (cfg : Config) (amount : ℚ) (currency : String)
    (channel_id : String) (spread_rate : ℚ) : Option TotalCostResult :=
  match calculate_channel_fee cfg amount channel_id true with
  | none => none
  | some (.failure e) => some (.failure e)
  | some (.ok fd) =>
    if currency ≠ "CNY" then
      match calculate_exchange_cost cfg amount currency "CNY" spread_rate with
      | .failure e => some (.failure e)
      | .ok ed =>
        let fee_cny := fd.final_fee * ed.actual_rate
        let total_cost := fee_cny + ed.exchange_loss
        let amount_cny := ed.actual_amount
        some (.ok
          { amount := amount
            currency := currency
            channel_id := channel_id
            fee := fd.final_fee
            fee_rate := fd.rate
            exchange_loss := ed.exchange_loss
            amount_cny := amount_cny
            total_cost := round_to 2 total_cost
            total_cost_rate :=
              if amount_cny > 0 then round_to 4 (total_cost / amount_cny) else 0 })
    else
      let total_cost := fd.final_fee
      some (.ok
        { amount := amount
          currency := currency
          channel_id := channel_id
          fee := fd.final_fee
          fee_rate := fd.rate
          exchange_loss := 0
          amount_cny := amount
          total_cost := round_to 2 total_cost
          total_cost_rate :=
            if amount > 0 then round_to 4 (total_cost / amount) else 0 })

/-- One element of the list returned by `compare_channel_fees`; `rank` is `0`
until the post-sort `result["rank"] = i + 1` assignment. -/
structure ComparisonEntry where
  channel_id : String
  channel_name : String
  fee : ℚ
  exchange_loss : ℚ
  total_cost : ℚ
  total_cost_rate : ℚ
  rank : ℕ
deriving DecidableEq

/-- The default `spread_rate=0.005` that `compare_channel_fees` lets
`calculate_total_cost` use. -/
def default_spread : ℚ := 1/200

/-- The accumulation loop of `compare_channel_fees`
(`_03_rate_calculator.py:426`): skip channels that do not support the
currency, drop channels whose total-cost computation reports failure. -/
def buildResults (cfg : Config) (amount : ℚ) (currency : String) :
    List String → Option (List ComparisonEntry)
  | [] => some []
  | channel_id :: rest =>
    match cfg.payment_channels.lookup channel_id with
    | none =>
      -- `PAYMENT_CHANNELS.get(channel_id, {})` has no supported currencies:
      -- the `currency not in supported` test always fires, so `continue`
      buildResults cfg amount currency rest
    | some channel_config =>
      if currency ∈ channel_config.supported_currencies then
        match calculate_total_cost cfg amount currency channel_id default_spread with
        | none => none
        | some (.failure _) => buildResults cfg amount currency rest
        | some (.ok d) =>
          (buildResults cfg amount currency rest).map
            (fun tail =>
              { channel_id := channel_id
                channel_name := channel_config.name
                fee := d.fee
                exchange_loss := d.exchange_loss
                total_cost := d.total_cost
                total_cost_rate := d.total_cost_rate
                rank := 0 } :: tail)
      else
        buildResults cfg amount currency rest

/-- The comparison key `lambda x: x["total_cost"]` of the `sorted` call. -/
def costLE (a b : ComparisonEntry) : Bool := a.total_cost ≤ b.total_cost

/-- The post-sort loop `for i, result in enumerate(results): result["rank"] = i + 1`,
with `i` starting at the given index. -/
def assignRanks : ℕ → List ComparisonEntry → List ComparisonEntry
  | _, [] => []
  | i, e :: es => { e with rank := i + 1 } :: assignRanks (i + 1) es

/-- The default `channel_ids = list(PAYMENT_CHANNELS.keys())` when the
argument is `None`. -/
def effectiveChannelIds (cfg : Config) : Option (List String) → List String
  | none => cfg.payment_channels.map Prod.fst
  | some ids => ids

/-- `compare_channel_fees` (`_03_rate_calculator.py:405`).  Python's `sorted`
is a stable ascending sort, modelled by `List.mergeSort`. -/
def compare_channel_fees (cfg : Config) (amount : ℚ) (currency : String)
    (channel_ids : Option (List String)) : Option (List ComparisonEntry) :=
  (buildResults cfg amount currency (effectiveChannelIds cfg channel_ids)).map
    (fun results => assignRanks 0 (results.mergeSort costLE))

/-- `find_cheapest_channel` (`_03_rate_calculator.py:461`): the outer `Option`
models an uncaught exception, the inner one the `None` ("not found") result. -/
def find_cheapest_channel (cfg : Config) (amount : ℚ) (currency : String) :
    Option (Option ComparisonEntry) :=
  (compare_channel_fees cfg amount currency none).map List.head?

/-- A channel contributes an entry to `compare_channel_fees` iff it is in the
catalog, supports the currency, and its total-cost computation succeeds. -/
def channelIncluded (cfg : Config) (amount : ℚ) (currency : String)
    (channel_id : String) : Bool :=
  match cfg.payment_channels.lookup channel_id with
  | none => false
  | some c =>
    decide (currency ∈ c.supported_currencies) &&
      (match calculate_total_cost cfg amount currency channel_id default_spread with
       | some (.ok _) => true
       | _ => false)

/-- Erase the `to_currency` field of an exchange result: used to state that
`to_currency` is only echoed, never computed with. -/
def ExchangeResult.eraseTo : ExchangeResult → ExchangeResult
  | .failure e => .failure e
  | .ok d => .ok { d with to_currency := "" }

/-- The `final_fee` field of a successful fee computation, if any. -/
def feeResultFinalFee : Option FeeResult → Option ℚ
  | some (.ok d) => some d.final_fee
  | _ => none

/-- The `actual_rate` field of a successful exchange computation, if any. -/
def exchangeActualRate : ExchangeResult → Option ℚ
  | .ok d => some d.actual_rate
  | .failure _ => none

/-- Shorthand for building a `ChannelConfig` in the concrete test catalog. -/
def mkCh (nm : String) (br ff mf xf : ℚ) (act : Bool) (sup : List String) :
    ChannelConfig :=
  { name := nm, base_rate := br, fixed_fee := ff, min_fee := mf, max_fee := xf,
    is_active := act, supported_currencies := sup }

/-- A concrete configuration used to instantiate the reviewed properties:
a tiered channel shaped like the spec's `bank_transfer` scenario (the final
catch-all tier's unbounded cap is represented by a bound larger than any
amount exercised), channels with only a minimum fee, with an inverted
min/max pair, with both clamps, and a disabled channel; the spec's USD
reference rate 7.25.  The tier table is shaped like the spec's
`bank_transfer` scenario. -/
def demoTiers : List RateTier :=
  [⟨10000, 0.015⟩, ⟨50000, 0.012⟩, ⟨100000, 0.010⟩, ⟨1000000000, 0.008⟩]

/-- The concrete catalog assembled from the pieces above. -/
def cfgDemo : Config :=
  { payment_channels :=
      [("bank_transfer", mkCh "BankWire" 0.001 50 0 0 true ["USD", "CNY"]),
       ("paypal", mkCh "PayPal" 0.044 0 0 0 true ["USD"]),
       ("minch", mkCh "MinOnly" 0.02 0 10 0 true ["USD"]),
       ("badch", mkCh "BadClamp" 0.02 0 100 50 true ["USD"]),
       ("capped", mkCh "Capped" 0.02 0 10 100 true ["USD"]),
       ("offch", mkCh "Disabled" 0.02 0 0 0 false ["USD"])],
    tiered_rates := [("bank_transfer", demoTiers)],
    exchange_rates := [("USD", 7.25), ("EUR", 7.8)] }

/-- The fee detail produced for channel `"capped"` at amount `100000`. -/
def cappedDetail : FeeDetail :=
  { channel_id := "capped", channel_name := "Capped", amount := 100000, rate := 1/50,
    fixed_fee := 0, calculated_fee := 2000, final_fee := 100, fee_note := "已应用最高收费" }

/-- The exchange detail for 1000 USD at the default spread `0.005`. -/
def usdExchangeDetail : ExchangeDetail :=
  { from_currency := "USD", to_currency := "CNY", original_amount := 1000,
    market_rate := 29/4, actual_rate := 36069/5000, spread_rate := 1/200,
    market_amount := 7250, actual_amount := 28855/4, exchange_loss := 145/4,
    loss_percentage := 1/2 }

/-- The fee detail produced for `"paypal"` at amount 10000. -/
def paypalFeeDetail : FeeDetail :=
  { channel_id := "paypal", channel_name := "PayPal", amount := 10000, rate := 11/250,
    fixed_fee := 0, calculated_fee := 440, final_fee := 440, fee_note := "" }

/-- The exchange detail for 10000 USD at the default spread. -/
def paypalExchangeDetail : ExchangeDetail :=
  { from_currency := "USD", to_currency := "CNY", original_amount := 10000,
    market_rate := 29/4, actual_rate := 36069/5000, spread_rate := 1/200,
    market_amount := 72500, actual_amount := 144275/2, exchange_loss := 725/2,
    loss_percentage := 1/2 }

/-- The total-cost detail for `"paypal"` at 10000 USD. -/
def paypalTotalDetail : TotalCostDetail :=
  { amount := 10000, currency := "USD", channel_id := "paypal", fee := 440,
    fee_rate := 11/250, exchange_loss := 725/2, amount_cny := 144275/2,
    total_cost := 353657/100, total_cost_rate := 49/1000 }

/-- The comparison entry for `"paypal"` at 10000 USD, before ranking. -/
def paypalEntry0 : ComparisonEntry :=
  { channel_id := "paypal", channel_name := "PayPal", fee := 440,
    exchange_loss := 725/2, total_cost := 353657/100, total_cost_rate := 49/1000,
    rank := 0 }

/-- The single comparison entry produced for `"paypal"` at 10000 USD. -/
def paypalRanked : ComparisonEntry :=
  { channel_id := "paypal", channel_name := "PayPal", fee := 440,
    exchange_loss := 725/2, total_cost := 353657/100, total_cost_rate := 49/1000,
    rank := 1 }

/-! ## Helper lemmas -/

theorem floor_le_pyRound (x : ℚ) : ⌊x⌋ ≤ pyRound x := by
  unfold pyRound
  split_ifs <;> omega

theorem pyRound_le_floor_add_one (x : ℚ) : pyRound x ≤ ⌊x⌋ + 1 := by
  unfold pyRound
  split_ifs <;> omega

theorem pyRound_mono {x y : ℚ} (h : x ≤ y) : pyRound x ≤ pyRound y := by
  rcases lt_or_eq_of_le (Int.floor_le_floor h) with hf | hf
  · calc pyRound x ≤ ⌊x⌋ + 1 := pyRound_le_floor_add_one x
    _ ≤ ⌊y⌋ := by omega
    _ ≤ pyRound y := floor_le_pyRound y
  · have hxy : x - (⌊x⌋ : ℚ) ≤ y - (⌊y⌋ : ℚ) := by
      rw [← hf]
      linarith
    unfold pyRound
    rw [← hf]
    split_ifs <;> first | omega | (exfalso; linarith)

theorem round_to_mono {x y : ℚ} (n : ℕ) (h : x ≤ y) : round_to n x ≤ round_to n y := by
  unfold round_to
  have hp : (0:ℚ) < 10 ^ n := by positivity
  have hm : ((pyRound (x * 10 ^ n) : ℤ) : ℚ) ≤ ((pyRound (y * 10 ^ n) : ℤ) : ℚ) := by
    exact_mod_cast pyRound_mono (by nlinarith : x * 10 ^ n ≤ y * 10 ^ n)
  gcongr

theorem round_to_zero (n : ℕ) : round_to n 0 = 0 := by
  norm_num [round_to, pyRound]

theorem lookup_mem {α β : Type} [BEq α] [LawfulBEq α] {l : List (α × β)} {k : α} {b : β}
    (h : l.lookup k = some b) : (k, b) ∈ l := by
  obtain ⟨l₁, l₂, rfl, -⟩ := List.lookup_eq_some_iff.mp h
  exact List.mem_append.mpr (Or.inr (List.mem_cons_self _ _))

theorem findTierRate_eq_find? (amount : ℚ) (ts : List RateTier) :
    findTierRate amount ts
      = (ts.find? (fun t => decide (amount ≤ t.max_amount))).map RateTier.rate := by
  induction ts with
  | nil => rfl
  | cons t ts ih =>
    by_cases h : amount ≤ t.max_amount
    · simp [findTierRate, List.find?_cons, h]
    · simp [findTierRate, List.find?_cons, h, ih]

theorem clampFee_le_max {mn mx c : ℚ} (hmx : 0 < mx) (hmm : mn ≤ mx) :
    (clampFee mn mx c).1 ≤ mx := by
  unfold clampFee
  split_ifs with h1 h2
  · exact hmm
  · exact le_refl mx
  · push_neg at h2
    exact le_of_not_lt (fun hc => absurd (h2 hmx) (not_le.mpr hc))

theorem clampFee_zero {mn mx : ℚ} (hmn : mn ≤ 0) : (clampFee mn mx 0).1 = 0 := by
  unfold clampFee
  split_ifs with h1 h2
  · exact absurd h1.1 (not_lt.mpr hmn)
  · exact absurd h2.1 (lt_asymm h2.2)
  · rfl

theorem calculate_tiered_rate_isSome (cfg : Config) (amount : ℚ) (channel_id : String)
    (h : ∀ ts, cfg.tiered_rates.lookup channel_id = some ts → ts ≠ []) :
    (calculate_tiered_rate cfg amount channel_id).isSome = true := by
  unfold calculate_tiered_rate
  cases hl : cfg.tiered_rates.lookup channel_id with
  | none =>
    cases cfg.payment_channels.lookup channel_id <;> simp
  | some ts =>
    cases hf : findTierRate amount ts with
    | some r => simp [hf]
    | none =>
      have hne : ts ≠ [] := h ts hl
      simp [hf, List.getLast?_eq_getLast ts hne]

theorem costLE_trans (a b c : ComparisonEntry) (h1 : costLE a b) (h2 : costLE b c) :
    costLE a c := by
  simp only [costLE, decide_eq_true_eq] at h1 h2 ⊢
  exact le_trans h1 h2

theorem costLE_total (a b : ComparisonEntry) : costLE a b || costLE b a := by
  simp only [costLE, Bool.or_eq_true, decide_eq_true_eq]
  exact le_total a.total_cost b.total_cost

theorem assignRanks_length (i : ℕ) (l : List ComparisonEntry) :
    (assignRanks i l).length = l.length := by
  induction l generalizing i with
  | nil => rfl
  | cons e es ih => simp [assignRanks, ih]

theorem assignRanks_get_rank :
    ∀ (l : List ComparisonEntry) (i j : ℕ) (hj : j < (assignRanks i l).length),
      ((assignRanks i l).get ⟨j, hj⟩).rank = i + j + 1 := by
  intro l
  induction l with
  | nil => intro i j hj; simp [assignRanks] at hj
  | cons e es ih =>
    intro i j hj
    cases j with
    | zero => simp [assignRanks]
    | succ j =>
      have := ih (i + 1) j (by simpa [assignRanks] using hj)
      simpa [assignRanks, Nat.add_assoc, Nat.add_comm, Nat.add_left_comm] using this

theorem assignRanks_map_total_cost (i : ℕ) (l : List ComparisonEntry) :
    (assignRanks i l).map (fun e => e.total_cost) = l.map (fun e => e.total_cost) := by
  induction l generalizing i with
  | nil => rfl
  | cons e es ih => simp [assignRanks, ih]

theorem assignRanks_map_channel_id (i : ℕ) (l : List ComparisonEntry) :
    (assignRanks i l).map (fun e => e.channel_id) = l.map (fun e => e.channel_id) := by
  induction l generalizing i with
  | nil => rfl
  | cons e es ih => simp [assignRanks, ih]

theorem assignRanks_filter_map (i : ℕ) (l : List ComparisonEntry) (c : ℚ) :
    ((assignRanks i l).filter (fun e => decide (e.total_cost = c))).map (fun e => e.channel_id)
      = (l.filter (fun e => decide (e.total_cost = c))).map (fun e => e.channel_id) := by
  induction l generalizing i with
  | nil => rfl
  | cons e es ih =>
    by_cases hc : e.total_cost = c
    · simp [assignRanks, List.filter_cons, hc, ih]
    · simp [assignRanks, List.filter_cons, hc, ih]

theorem mergeSort_filter_cost (l : List ComparisonEntry) (c : ℚ) :
    (l.mergeSort costLE).filter (fun e => decide (e.total_cost = c))
      = l.filter (fun e => decide (e.total_cost = c)) := by
  have hpw : (l.filter (fun e => decide (e.total_cost = c))).Pairwise (costLE · ·) := by
    refine List.pairwise_of_forall_mem_list ?_
    intro a ha b hb
    have ha' := (List.of_mem_filter ha)
    have hb' := (List.of_mem_filter hb)
    simp only [decide_eq_true_eq] at ha' hb'
    simp only [costLE, decide_eq_true_eq]
    rw [ha', hb']
  have hsub : List.Sublist (l.filter (fun e => decide (e.total_cost = c)))
      (l.mergeSort costLE) :=
    List.sublist_mergeSort costLE_trans costLE_total hpw (List.filter_sublist l)
  have hself : (l.filter (fun e => decide (e.total_cost = c))).filter
      (fun e => decide (e.total_cost = c)) = l.filter (fun e => decide (e.total_cost = c)) :=
    List.filter_eq_self.mpr (fun a ha => List.mem_filter.mp ha |>.2)
  have hsub2 : List.Sublist (l.filter (fun e => decide (e.total_cost = c)))
      ((l.mergeSort costLE).filter (fun e => decide (e.total_cost = c))) := by
    have := hsub.filter (fun e => decide (e.total_cost = c))
    rwa [hself] at this
  have hperm : List.Perm ((l.mergeSort costLE).filter (fun e => decide (e.total_cost = c)))
      (l.filter (fun e => decide (e.total_cost = c))) :=
    (List.mergeSort_perm l costLE).filter _
  exact (hsub2.eq_of_length hperm.length_eq.symm).symm

theorem buildResults_map_channel_id (cfg : Config) (amount : ℚ) (currency : String) :
    ∀ (ids : List String) (res : List ComparisonEntry),
      buildResults cfg amount currency ids = some res →
      res.map (fun e => e.channel_id) = ids.filter (channelIncluded cfg amount currency) := by
  intro ids
  induction ids with
  | nil =>
    intro res h
    simp only [buildResults, Option.some.injEq] at h
    subst h
    rfl
  | cons cid rest ih =>
    intro res h
    cases hl : cfg.payment_channels.lookup cid with
    | none =>
      simp only [buildResults, hl] at h
      rw [List.filter_cons_of_neg (by simp [channelIncluded, hl])]
      exact ih res h
    | some c =>
      by_cases hcur : currency ∈ c.supported_currencies
      · cases ht : calculate_total_cost cfg amount currency cid default_spread with
        | none =>
          simp only [buildResults, hl, if_pos hcur, ht] at h
          exact Option.noConfusion h
        | some tr =>
          cases tr with
          | failure e =>
            simp only [buildResults, hl, if_pos hcur, ht] at h
            rw [List.filter_cons_of_neg (by simp [channelIncluded, hl, ht])]
            exact ih res h
          | ok d =>
            cases hb : buildResults cfg amount currency rest with
            | none =>
              simp only [buildResults, hl, if_pos hcur, ht, hb, Option.map_none'] at h
              exact Option.noConfusion h
            | some tail =>
              simp only [buildResults, hl, if_pos hcur, ht, hb, Option.map_some',
                Option.some.injEq] at h
              subst h
              rw [List.filter_cons_of_pos (by simp [channelIncluded, hl, ht, hcur])]
              simp only [List.map_cons]
              rw [ih tail hb]
      · simp only [buildResults, hl, if_neg hcur] at h
        rw [List.filter_cons_of_neg (by simp [channelIncluded, hl, hcur])]
        exact ih res h

theorem buildResults_nil (cfg : Config) (amount : ℚ) (currency : String) :
    ∀ (ids : List String),
      (∀ cid ∈ ids, ∀ c, cfg.payment_channels.lookup cid = some c →
        currency ∉ c.supported_currencies) →
      buildResults cfg amount currency ids = some [] := by
  intro ids
  induction ids with
  | nil => intro _; rfl
  | cons cid rest ih =>
    intro h
    cases hl : cfg.payment_channels.lookup cid with
    | none =>
      simp only [buildResults, hl]
      exact ih (fun x hx => h x (List.mem_cons_of_mem _ hx))
    | some c =>
      have hcur : currency ∉ c.supported_currencies :=
        h cid (List.mem_cons_self _ _) c hl
      simp only [buildResults, hl, if_neg hcur]
      exact ih (fun x hx => h x (List.mem_cons_of_mem _ hx))

theorem mem_assignRanks {b : ComparisonEntry} :
    ∀ {i : ℕ} {l : List ComparisonEntry}, b ∈ assignRanks i l →
      ∃ a ∈ l, b.total_cost = a.total_cost := by
  intro i l
  induction l generalizing i with
  | nil => intro h; simp [assignRanks] at h
  | cons e es ih =>
    intro h
    rcases List.mem_cons.mp h with h0 | h1
    · exact ⟨e, List.mem_cons_self _ _, by rw [h0]⟩
    · obtain ⟨a, ha, hc⟩ := ih h1
      exact ⟨a, List.mem_cons_of_mem _ ha, hc⟩

theorem assignRanks_pairwise_cost (i : ℕ) (l : List ComparisonEntry)
    (h : l.Pairwise (fun a b => a.total_cost ≤ b.total_cost)) :
    (assignRanks i l).Pairwise (fun a b => a.total_cost ≤ b.total_cost) := by
  induction l generalizing i with
  | nil => simp [assignRanks]
  | cons e es ih =>
    rw [List.pairwise_cons] at h
    simp only [assignRanks, List.pairwise_cons]
    refine ⟨?_, ih (i + 1) h.2⟩
    intro b hb
    obtain ⟨a, ha, hc⟩ := mem_assignRanks hb
    have := h.1 a ha
    simpa [hc] using this

theorem compare_eq_some {cfg : Config} {amount : ℚ} {currency : String}
    {ids : Option (List String)} {out : List ComparisonEntry} :
    compare_channel_fees cfg amount currency ids = some out ↔
      ∃ res, buildResults cfg amount currency (effectiveChannelIds cfg ids) = some res ∧
        out = assignRanks 0 (res.mergeSort costLE) := by
  unfold compare_channel_fees
  cases hb : buildResults cfg amount currency (effectiveChannelIds cfg ids) with
  | none => simp
  | some res => simp [eq_comm]

/-! ## The reviewed properties -/

/-- C7: the unknown-channel, inactive-channel and unsupported-currency
conditions are each reported by `calculate_channel_fee` / `calculate_exchange_cost`
as a returned structured record whose success flag is false together with a
message, never by raising an exception (the functions return a value on
these paths). -/
theorem claim7_structured_failures (cfg : Config) (amount : ℚ) (channel_id : String)
    (u : Bool) (from_currency to_currency : String) (spread_rate : ℚ) :
    (cfg.payment_channels.lookup channel_id = none →
      calculate_channel_fee cfg amount channel_id u
        = some (FeeResult.failure ("未知的支付通道: " ++ channel_id)) ∧
      FeeResult.success (FeeResult.failure ("未知的支付通道: " ++ channel_id)) = false) ∧
    (∀ c, cfg.payment_channels.lookup channel_id = some c → c.is_active = false →
      calculate_channel_fee cfg amount channel_id u
        = some (FeeResult.failure ("支付通道已停用: " ++ channel_id)) ∧
      FeeResult.success (FeeResult.failure ("支付通道已停用: " ++ channel_id)) = false) ∧
    (cfg.exchange_rates.lookup from_currency = none →
      calculate_exchange_cost cfg amount from_currency to_currency spread_rate
        = ExchangeResult.failure ("不支持的货币: " ++ from_currency) ∧
      ExchangeResult.success (ExchangeResult.failure ("不支持的货币: " ++ from_currency))
        = false) := by
  refine ⟨?_, ?_, ?_⟩
  · intro h
    exact ⟨by simp [calculate_channel_fee, h], rfl⟩
  · intro c hc hact
    exact ⟨by simp [calculate_channel_fee, hc, hact], rfl⟩
  · intro h
    exact ⟨by simp [calculate_exchange_cost, h], rfl⟩

/-- Witness for C7 on the concrete catalog: an absent channel id, the
disabled channel, and an unlisted currency. -/
theorem claim7_witness :
    calculate_channel_fee cfgDemo 5 "ghost" true
      = some (FeeResult.failure ("未知的支付通道: " ++ "ghost")) ∧
    calculate_channel_fee cfgDemo 5 "offch" true
      = some (FeeResult.failure ("支付通道已停用: " ++ "offch")) ∧
    calculate_exchange_cost cfgDemo 5 "JPY" "CNY" (1/200)
      = ExchangeResult.failure ("不支持的货币: " ++ "JPY") := by
  refine ⟨?_, ?_, ?_⟩
  · exact ((claim7_structured_failures cfgDemo 5 "ghost" true "JPY" "CNY" (1/200)).1
      (by simp [cfgDemo, List.lookup])).1
  · exact ((claim7_structured_failures cfgDemo 5 "offch" true "JPY" "CNY" (1/200)).2.1
      (mkCh "Disabled" 0.02 0 0 0 false ["USD"]) (by simp [cfgDemo, List.lookup]) rfl).1
  · exact ((claim7_structured_failures cfgDemo 5 "offch" true "JPY" "CNY" (1/200)).2.2
      (by simp [cfgDemo, List.lookup])).1

/-- C9: two calls to `calculate_exchange_cost` differing only in the
`to_currency` argument agree on every field except the echoed `to_currency`
(erasing that field makes the results equal): no computed output depends on
`to_currency`. -/
theorem claim9_to_currency_noninterference (cfg : Config) (amount : ℚ)
    (from_currency t1 t2 : String) (spread_rate : ℚ) :
    (calculate_exchange_cost cfg amount from_currency t1 spread_rate).eraseTo
      = (calculate_exchange_cost cfg amount from_currency t2 spread_rate).eraseTo := by
  unfold calculate_exchange_cost
  cases cfg.exchange_rates.lookup from_currency <;> rfl

/-- C2: when a channel has a (sorted, nonempty) tier list, the selected rate
is that of the first tier whose bound is `≥` the amount (the bound is
inclusive), and the last tier's rate when the amount exceeds every bound. -/
theorem claim2_tiered_rate_selection (cfg : Config) (amount : ℚ) (channel_id : String)
    (tiers : List RateTier)
    (hlk : cfg.tiered_rates.lookup channel_id = some tiers)
    (hsorted : tiers.Pairwise (fun a b => a.max_amount ≤ b.max_amount))
    (hne : tiers ≠ []) :
    (∀ t, tiers.find? (fun t => decide (amount ≤ t.max_amount)) = some t →
      calculate_tiered_rate cfg amount channel_id = some t.rate) ∧
    ((∀ t ∈ tiers, t.max_amount < amount) →
      calculate_tiered_rate cfg amount channel_id = some (tiers.getLast hne).rate) := by
  constructor
  · intro t ht
    simp [calculate_tiered_rate, hlk, findTierRate_eq_find?, ht]
  · intro hall
    have hf : tiers.find? (fun t => decide (amount ≤ t.max_amount)) = none :=
      List.find?_eq_none.mpr (fun x hx => by simpa using not_le.mpr (hall x hx))
    simp [calculate_tiered_rate, hlk, findTierRate_eq_find?, hf,
      List.getLast?_eq_getLast tiers hne]

/-- Witness for C2: the spec scenario — amount 10000 on the bank-transfer
tier table selects 0.015 (the bound is inclusive). -/
theorem claim2_witness :
    demoTiers.Pairwise (fun a b => a.max_amount ≤ b.max_amount) ∧
    calculate_tiered_rate cfgDemo 10000 "bank_transfer" = some 0.015 := by
  constructor
  · norm_num [demoTiers, List.pairwise_cons]
  · exact (claim2_tiered_rate_selection cfgDemo 10000 "bank_transfer" demoTiers
      (by simp [cfgDemo, demoTiers, List.lookup]) (by norm_num [demoTiers, List.pairwise_cons])
      (by simp [demoTiers])).1 ⟨10000, 0.015⟩ (by norm_num [demoTiers, List.find?])

/-- C1 is false as stated: `calculate_channel_fee` performs no `amount <= 0`
check, so on the active channel `"minch"` (positive configured minimum fee
10) the amount 0 produces final fee 10, not 0. -/
theorem claim1_counterexample :
    feeResultFinalFee (calculate_channel_fee cfgDemo 0 "minch" true) = some 10 ∧
    (10:ℚ) ≠ 0 := by
  have hlk : cfgDemo.payment_channels.lookup "minch"
      = some (mkCh "MinOnly" 0.02 0 10 0 true ["USD"]) := by
    simp [cfgDemo, List.lookup]
  have htr : cfgDemo.tiered_rates.lookup "minch" = none := by
    simp [cfgDemo, List.lookup]
  refine ⟨?_, by norm_num⟩
  simp only [calculate_channel_fee, hlk, htr, mkCh]
  norm_num [clampFee, round_to, pyRound, feeResultFinalFee]

/-- C1 amended: for an active configured channel (with nonempty tier tables),
any amount `≤ 0` still succeeds without error, but the final fee is the
clamped value of `amount * rate + fixed_fee`, not necessarily zero; it is
zero at amount 0 when the channel has no fixed fee and no positive minimum
fee. -/
theorem claim1_amended (cfg : Config) (amount : ℚ) (channel_id : String) (u : Bool)
    (c : ChannelConfig)
    (hamt : amount ≤ 0)
    (hc : cfg.payment_channels.lookup channel_id = some c)
    (hact : c.is_active = true)
    (htiers : ∀ ts, cfg.tiered_rates.lookup channel_id = some ts → ts ≠ []) :
    ∃ d, calculate_channel_fee cfg amount channel_id u = some (FeeResult.ok d) ∧
      (c.fixed_fee = 0 → c.min_fee ≤ 0 → amount = 0 → d.final_fee = 0) := by
  have hrate : ∃ r, (if u = true ∧ (cfg.tiered_rates.lookup channel_id).isSome
      then calculate_tiered_rate cfg amount channel_id
      else some c.base_rate) = some r := by
    split_ifs with hcond
    · exact Option.isSome_iff_exists.mp
        (calculate_tiered_rate_isSome cfg amount channel_id htiers)
    · exact ⟨c.base_rate, rfl⟩
  obtain ⟨r, hr⟩ := hrate
  refine ⟨{ channel_id := channel_id, channel_name := c.name, amount := amount,
            rate := r, fixed_fee := c.fixed_fee,
            calculated_fee := round_to 2 (amount * r + c.fixed_fee),
            final_fee := round_to 2 (clampFee c.min_fee c.max_fee (amount * r + c.fixed_fee)).1,
            fee_note := (clampFee c.min_fee c.max_fee (amount * r + c.fixed_fee)).2 }, ?_, ?_⟩
  · simp [calculate_channel_fee, hc, hact, hr]
  · intro hfix hmin h0
    subst h0
    simp only [hfix, zero_mul, add_zero]
    rw [clampFee_zero hmin, round_to_zero]

/-- Witness for the amended C1: on `"paypal"` (no fixed fee, no minimum),
amount 0 succeeds with a zero final fee. -/
theorem claim1_witness :
    feeResultFinalFee (calculate_channel_fee cfgDemo 0 "paypal" true) = some 0 := by
  obtain ⟨d, hd, h0⟩ := claim1_amended cfgDemo 0 "paypal" true
    (mkCh "PayPal" 0.044 0 0 0 true ["USD"]) (le_refl 0)
    (by simp [cfgDemo, List.lookup]) rfl
    (by simp [cfgDemo, List.lookup])
  have hz : d.final_fee = 0 := h0 rfl (le_refl 0) rfl
  simp [feeResultFinalFee, hd, hz]

/-- C3 is false as stated: on the active channel `"badch"` (maximum fee 50
but minimum fee 100), amount 10 yields calculated fee 0.2, the minimum
clamp fires first, and the returned final fee 100 exceeds the configured
maximum 50. -/
theorem claim3_counterexample :
    feeResultFinalFee (calculate_channel_fee cfgDemo 10 "badch" true) = some 100 ∧
    (cfgDemo.payment_channels.lookup "badch").map ChannelConfig.max_fee = some 50 ∧
    ¬ ((100:ℚ) ≤ 50) := by
  have hlk : cfgDemo.payment_channels.lookup "badch"
      = some (mkCh "BadClamp" 0.02 0 100 50 true ["USD"]) := by
    simp [cfgDemo, List.lookup]
  have htr : cfgDemo.tiered_rates.lookup "badch" = none := by
    simp [cfgDemo, List.lookup]
  refine ⟨?_, ?_, by norm_num⟩
  · simp only [calculate_channel_fee, hlk, htr, mkCh]
    norm_num [clampFee, round_to, pyRound, feeResultFinalFee]
  · simp [hlk, mkCh]

/-- C3 amended: for every channel whose positive configured maximum fee is an
exact 2-decimal value and whose minimum fee does not exceed it, every
successful fee computation returns a final fee `≤` that maximum. -/
theorem claim3_amended (cfg : Config) (amount : ℚ) (channel_id : String) (u : Bool)
    (c : ChannelConfig) (d : FeeDetail)
    (hc : cfg.payment_channels.lookup channel_id = some c)
    (hmax : 0 < c.max_fee)
    (hmm : c.min_fee ≤ c.max_fee)
    (hmax2 : round_to 2 c.max_fee = c.max_fee)
    (hres : calculate_channel_fee cfg amount channel_id u = some (FeeResult.ok d)) :
    d.final_fee ≤ c.max_fee := by
  simp only [calculate_channel_fee, hc] at hres
  by_cases hact : c.is_active = false
  · simp [hact] at hres
  · rw [if_neg hact] at hres
    cases hro : (if u = true ∧ (cfg.tiered_rates.lookup channel_id).isSome
        then calculate_tiered_rate cfg amount channel_id
        else some c.base_rate) with
    | none =>
      rw [hro] at hres
      exact Option.noConfusion hres
    | some r =>
      rw [hro] at hres
      simp only [Option.some.injEq, FeeResult.ok.injEq] at hres
      rw [← hres]
      calc round_to 2 (clampFee c.min_fee c.max_fee (amount * r + c.fixed_fee)).1
          ≤ round_to 2 c.max_fee := round_to_mono 2 (clampFee_le_max hmax hmm)
        _ = c.max_fee := hmax2

/-- Witness for the amended C3: the `"capped"` channel (min 10 ≤ max 100)
at amount 100000 clamps the 2000 raw fee down to the maximum, 100. -/
theorem claim3_witness :
    calculate_channel_fee cfgDemo 100000 "capped" true = some (FeeResult.ok cappedDetail) ∧
    cappedDetail.final_fee ≤ (100:ℚ) := by
  have hlk : cfgDemo.payment_channels.lookup "capped"
      = some (mkCh "Capped" 0.02 0 10 100 true ["USD"]) := by
    simp [cfgDemo, List.lookup]
  have htr : cfgDemo.tiered_rates.lookup "capped" = none := by
    simp [cfgDemo, List.lookup]
  have hres : calculate_channel_fee cfgDemo 100000 "capped" true
      = some (FeeResult.ok cappedDetail) := by
    simp only [calculate_channel_fee, hlk, htr, mkCh]
    norm_num [clampFee, round_to, pyRound, cappedDetail]
  refine ⟨hres, ?_⟩
  have h := claim3_amended cfgDemo 100000 "capped" true
    (mkCh "Capped" 0.02 0 10 100 true ["USD"]) cappedDetail
    (by simp [cfgDemo, List.lookup]) (by norm_num [mkCh]) (by norm_num [mkCh])
    (by norm_num [mkCh, round_to, pyRound]) hres
  simpa [mkCh] using h

/-- C4: for a nonnegative amount and a reference-rate table with nonnegative
rates (as in the catalog), every successful exchange computation satisfies
`actual_amount ≤ market_amount` when the spread is positive, with equality
when the spread is zero. -/
theorem claim4_exchange_spread (cfg : Config) (amount : ℚ)
    (from_currency to_currency : String) (spread_rate : ℚ)
    (hamt : 0 ≤ amount)
    (hrates : ∀ p ∈ cfg.exchange_rates, 0 ≤ p.2) :
    (0 < spread_rate → ∀ d,
      calculate_exchange_cost cfg amount from_currency to_currency spread_rate
        = ExchangeResult.ok d → d.actual_amount ≤ d.market_amount) ∧
    (spread_rate = 0 → ∀ d,
      calculate_exchange_cost cfg amount from_currency to_currency spread_rate
        = ExchangeResult.ok d → d.actual_amount = d.market_amount) := by
  cases hl : cfg.exchange_rates.lookup from_currency with
  | none =>
    constructor <;> (intro hs d hd; simp [calculate_exchange_cost, hl] at hd)
  | some r =>
    have hr : 0 ≤ r := hrates (from_currency, r) (lookup_mem hl)
    constructor
    · intro hs d hd
      simp only [calculate_exchange_cost, hl, ExchangeResult.ok.injEq] at hd
      subst hd
      exact round_to_mono 2 (by nlinarith [mul_nonneg (mul_nonneg hamt hr) (le_of_lt hs)])
    · intro hs d hd
      subst hs
      simp only [calculate_exchange_cost, hl, ExchangeResult.ok.injEq] at hd
      subst hd
      norm_num

/-- Witness for C4: 1000 USD at the default spread 0.005 — the returned
actual amount 7213.75 does not exceed the market amount 7250. -/
theorem claim4_witness :
    (0:ℚ) ≤ 1000 ∧ usdExchangeDetail.actual_amount ≤ usdExchangeDetail.market_amount := by
  refine ⟨by norm_num, ?_⟩
  have hl : cfgDemo.exchange_rates.lookup "USD" = some 7.25 := by
    simp [cfgDemo, List.lookup]
  have hok : calculate_exchange_cost cfgDemo 1000 "USD" "CNY" (1/200)
      = ExchangeResult.ok usdExchangeDetail := by
    simp only [calculate_exchange_cost, hl]
    norm_num [usdExchangeDetail, round_to, pyRound]
  refine (claim4_exchange_spread cfgDemo 1000 "USD" "CNY" (1/200) (by norm_num) ?_).1
    (by norm_num) usdExchangeDetail hok
  intro p hp
  simp [cfgDemo] at hp
  rcases hp with h | h <;> subst h <;> norm_num

/-- C8 is false as stated: at the spec's scenario (amount 1000, USD market
rate 7.25, spread 0.005) the code rounds the actual rate to 4 decimal
places, so the returned `actual_rate` is 7.2138 (banker's rounding of
7.21375), not the claimed 7.21375. -/
theorem claim8_counterexample :
    exchangeActualRate (calculate_exchange_cost cfgDemo 1000 "USD" "CNY" (1/200))
      = some (36069/5000) ∧ (36069/5000 : ℚ) ≠ 7.21375 := by
  have hl : cfgDemo.exchange_rates.lookup "USD" = some 7.25 := by
    simp [cfgDemo, List.lookup]
  refine ⟨?_, by norm_num⟩
  simp only [calculate_exchange_cost, hl, exchangeActualRate]
  norm_num [round_to, pyRound]

/-- C8 amended: with the USD market rate 7.25, the scenario returns
`actual_rate` 7.2138 (7.21375 rounded to 4 decimal places, half to even),
`market_amount` 7250.00, `actual_amount` 7213.75 and `exchange_loss` 36.25. -/
theorem claim8_amended (cfg : Config)
    (h : cfg.exchange_rates.lookup "USD" = some (29/4)) :
    calculate_exchange_cost cfg 1000 "USD" "CNY" (1/200)
      = ExchangeResult.ok usdExchangeDetail := by
  simp only [calculate_exchange_cost, h]
  norm_num [usdExchangeDetail, round_to, pyRound]

/-- Witness for the amended C8 on the concrete catalog. -/
theorem claim8_witness :
    calculate_exchange_cost cfgDemo 1000 "USD" "CNY" (1/200)
      = ExchangeResult.ok usdExchangeDetail := by
  refine claim8_amended cfgDemo ?_
  have : cfgDemo.exchange_rates.lookup "USD" = some 7.25 := by
    simp [cfgDemo, List.lookup]
  rw [this]
  norm_num

/-! ### Concrete evaluations on the demo catalog, shared by the witnesses -/

theorem demo_lookup_paypal : cfgDemo.payment_channels.lookup "paypal"
    = some (mkCh "PayPal" 0.044 0 0 0 true ["USD"]) := by
  simp [cfgDemo, List.lookup]

theorem demo_lookup_offch : cfgDemo.payment_channels.lookup "offch"
    = some (mkCh "Disabled" 0.02 0 0 0 false ["USD"]) := by
  simp [cfgDemo, List.lookup]

theorem demo_tiered_paypal : cfgDemo.tiered_rates.lookup "paypal" = none := by
  simp [cfgDemo, List.lookup]

theorem demo_rate_usd : cfgDemo.exchange_rates.lookup "USD" = some 7.25 := by
  simp [cfgDemo, List.lookup]

theorem demo_fee_paypal : calculate_channel_fee cfgDemo 10000 "paypal" true
    = some (FeeResult.ok paypalFeeDetail) := by
  simp only [calculate_channel_fee, demo_lookup_paypal, demo_tiered_paypal, mkCh]
  norm_num [clampFee, round_to, pyRound, paypalFeeDetail]

theorem demo_exch_usd : calculate_exchange_cost cfgDemo 10000 "USD" "CNY" default_spread
    = ExchangeResult.ok paypalExchangeDetail := by
  simp only [calculate_exchange_cost, demo_rate_usd, default_spread]
  norm_num [paypalExchangeDetail, round_to, pyRound]

theorem demo_total_paypal : calculate_total_cost cfgDemo 10000 "USD" "paypal" default_spread
    = some (TotalCostResult.ok paypalTotalDetail) := by
  simp only [calculate_total_cost, demo_fee_paypal, demo_exch_usd]
  rw [if_pos (by decide : ("USD":String) ≠ "CNY")]
  norm_num [paypalTotalDetail, paypalFeeDetail, paypalExchangeDetail, round_to, pyRound]

theorem demo_fee_offch : calculate_channel_fee cfgDemo 10000 "offch" true
    = some (FeeResult.failure ("支付通道已停用: " ++ "offch")) := by
  simp [calculate_channel_fee, demo_lookup_offch, mkCh]

theorem demo_total_offch : calculate_total_cost cfgDemo 10000 "USD" "offch" default_spread
    = some (TotalCostResult.failure ("支付通道已停用: " ++ "offch")) := by
  simp only [calculate_total_cost, demo_fee_offch]

theorem demo_build_paypal : buildResults cfgDemo 10000 "USD" ["paypal"]
    = some [paypalEntry0] := by
  simp only [buildResults, demo_lookup_paypal, demo_total_paypal, mkCh]
  norm_num [paypalEntry0, paypalTotalDetail]

theorem demo_build_two : buildResults cfgDemo 10000 "USD" ["offch", "paypal"]
    = some [paypalEntry0] := by
  simp only [buildResults, demo_lookup_offch, demo_total_offch, demo_lookup_paypal,
    demo_total_paypal, mkCh]
  norm_num [paypalEntry0, paypalTotalDetail]

theorem demo_compare_paypal : compare_channel_fees cfgDemo 10000 "USD" (some ["paypal"])
    = some [paypalRanked] := by
  simp only [compare_channel_fees, effectiveChannelIds, demo_build_paypal,
    Option.map_some']
  simp [assignRanks, paypalRanked, paypalEntry0]

theorem demo_compare_two :
    compare_channel_fees cfgDemo 10000 "USD" (some ["offch", "paypal"])
      = some [paypalRanked] := by
  simp only [compare_channel_fees, effectiveChannelIds, demo_build_two,
    Option.map_some']
  simp [assignRanks, paypalRanked, paypalEntry0]

/-- C5: whatever `compare_channel_fees` returns is sorted ascending by
`total_cost`, carries `rank = index + 1`, and entries of equal total cost
keep the order in which the accumulation loop produced them (stable sort). -/
theorem claim5_sorted_ranked_stable (cfg : Config) (amount : ℚ) (currency : String)
    (channel_ids : Option (List String)) (out : List ComparisonEntry)
    (h : compare_channel_fees cfg amount currency channel_ids = some out) :
    List.Pairwise (fun a b => a.total_cost ≤ b.total_cost) out ∧
    (∀ i (hi : i < out.length), (out.get ⟨i, hi⟩).rank = i + 1) ∧
    (∀ res, buildResults cfg amount currency (effectiveChannelIds cfg channel_ids)
        = some res →
      ∀ q : ℚ,
        (out.filter (fun e => decide (e.total_cost = q))).map (fun e => e.channel_id)
          = (res.filter (fun e => decide (e.total_cost = q))).map (fun e => e.channel_id)) := by
  obtain ⟨res, hres, hout⟩ := compare_eq_some.mp h
  subst hout
  refine ⟨?_, ?_, ?_⟩
  · refine assignRanks_pairwise_cost 0 _ ?_
    have hs : (res.mergeSort costLE).Pairwise (costLE · ·) :=
      List.sorted_mergeSort costLE_trans costLE_total res
    exact hs.imp (by intro a b hab; simpa [costLE] using hab)
  · intro i hi
    rw [assignRanks_get_rank]
    omega
  · intro res' hres' q
    rw [hres] at hres'
    obtain rfl : res = res' := Option.some.inj hres'
    rw [assignRanks_filter_map, mergeSort_filter_cost]

/-- Witness for C5 at a concrete comparison: the one-channel output is
sorted, and its rank field is its index plus one. -/
theorem claim5_witness :
    compare_channel_fees cfgDemo 10000 "USD" (some ["paypal"]) = some [paypalRanked] ∧
    List.Pairwise (fun a b : ComparisonEntry => a.total_cost ≤ b.total_cost)
      [paypalRanked] ∧
    paypalRanked.rank = 1 := by
  have h := claim5_sorted_ranked_stable cfgDemo 10000 "USD" (some ["paypal"])
    [paypalRanked] demo_compare_paypal
  refine ⟨demo_compare_paypal, h.1, ?_⟩
  have h2 := h.2.1 0 (by norm_num)
  simpa using h2

/-- C6: an empty channel list, or a channel set none of which supports the
currency, yields an empty comparison; and `find_cheapest_channel` returns
`None` ("not found") exactly when the comparison list is empty. -/
theorem claim6_empty_and_not_found (cfg : Config) (amount : ℚ) (currency : String) :
    compare_channel_fees cfg amount currency (some []) = some [] ∧
    (∀ ids : Option (List String),
      (∀ cid ∈ effectiveChannelIds cfg ids, ∀ c,
        cfg.payment_channels.lookup cid = some c →
          currency ∉ c.supported_currencies) →
      compare_channel_fees cfg amount currency ids = some []) ∧
    (∀ l, compare_channel_fees cfg amount currency none = some l →
      (find_cheapest_channel cfg amount currency = some none ↔ l = [])) := by
  refine ⟨?_, ?_, ?_⟩
  · simp [compare_channel_fees, effectiveChannelIds, buildResults, assignRanks]
  · intro ids hsup
    have hb := buildResults_nil cfg amount currency _ hsup
    simp [compare_channel_fees, hb, assignRanks]
  · intro l hl
    unfold find_cheapest_channel
    rw [hl]
    simp

/-- Witness for C6: no channel of the demo catalog supports JPY, so the
comparison is empty and the cheapest-channel search reports "not found". -/
theorem claim6_witness :
    compare_channel_fees cfgDemo 5 "JPY" none = some [] ∧
    find_cheapest_channel cfgDemo 5 "JPY" = some none := by
  have h := claim6_empty_and_not_found cfgDemo 5 "JPY"
  have h2 : compare_channel_fees cfgDemo 5 "JPY" none = some [] := by
    refine h.2.1 none ?_
    intro cid hcid c hc hmem
    simp only [effectiveChannelIds, cfgDemo, List.map] at hcid
    fin_cases hcid <;>
      simp only [cfgDemo, List.lookup, mkCh] at hc <;>
      simp at hc <;>
      (try subst hc) <;>
      simp [mkCh] at hmem
  exact ⟨h2, (h.2.2 [] h2).mpr rfl⟩

/-- C10: channels whose total-cost computation reports failure (e.g. an
inactive channel that supports the currency) are silently omitted: the
output's channel ids are exactly (a permutation of) the ids that support
the currency and succeed, and a channel marked not-included never appears. -/
theorem claim10_failures_omitted (cfg : Config) (amount : ℚ) (currency : String)
    (channel_ids : Option (List String)) (out : List ComparisonEntry)
    (h : compare_channel_fees cfg amount currency channel_ids = some out) :
    List.Perm (out.map (fun e => e.channel_id))
      ((effectiveChannelIds cfg channel_ids).filter
        (channelIncluded cfg amount currency)) ∧
    (∀ cid ∈ effectiveChannelIds cfg channel_ids,
      channelIncluded cfg amount currency cid = false →
      cid ∉ out.map (fun e => e.channel_id)) := by
  obtain ⟨res, hres, hout⟩ := compare_eq_some.mp h
  subst hout
  have hmap := buildResults_map_channel_id cfg amount currency _ res hres
  have hperm : List.Perm
      ((assignRanks 0 (res.mergeSort costLE)).map (fun e => e.channel_id))
      (res.map (fun e => e.channel_id)) := by
    rw [assignRanks_map_channel_id]
    exact (List.mergeSort_perm res costLE).map _
  constructor
  · rw [hmap] at hperm
    exact hperm
  · intro cid hcid hfalse hmem
    have hmem2 : cid ∈ res.map (fun e => e.channel_id) := hperm.mem_iff.mp hmem
    rw [hmap] at hmem2
    have := (List.mem_filter.mp hmem2).2
    rw [hfalse] at this
    exact Bool.noConfusion this

/-- Witness for C10: `"offch"` supports USD but is disabled; its total-cost
computation fails and it is silently dropped from the comparison. -/
theorem claim10_witness :
    compare_channel_fees cfgDemo 10000 "USD" (some ["offch", "paypal"])
      = some [paypalRanked] ∧
    List.Perm ([paypalRanked].map (fun e => e.channel_id))
      ((["offch", "paypal"]).filter (channelIncluded cfgDemo 10000 "USD")) ∧
    "offch" ∉ [paypalRanked].map (fun e => e.channel_id) := by
  have h := claim10_failures_omitted cfgDemo 10000 "USD" (some ["offch", "paypal"])
    [paypalRanked] demo_compare_two
  refine ⟨demo_compare_two, h.1, ?_⟩
  refine h.2 "offch" (by simp [effectiveChannelIds]) ?_
  simp only [channelIncluded, demo_lookup_offch, demo_total_offch, mkCh]
  simp

end RateCalc
